import Mathlib

/-!
Shallow embedding of the strike-band dashboard in `src/app.py`.

Numeric modelling: Python floats are modelled as exact rationals (ℚ);
Python's built-in `round` is round-half-to-even, modelled by `rnd` below.
Python dicts that are only read back by key are modelled as association
lists (`List (String × α)`) looked up with `dget`; a Python
`dict.get(k, default)` is `(dget l k).getD default`.
HTTP calls are modelled by an explicit response value: the `exn`
constructor stands for any situation in which the Python code inside the
`try` block raises (network failure, timeout, malformed JSON payload,
missing key); the `payload` constructor carries the parsed JSON status
string and data mapping.  A function that in Python catches all
exceptions and returns `None` is modelled as a total Lean function
returning an `Option` value together with an optional error message,
so "never raises to the caller" is totality of the model.
-/

namespace KyotoApp

/-- Round-half-to-even on rationals: the behaviour of Python's built-in
`round` used at `src/app.py:124` (`round(spot_price / step_size)`). -/
def rnd (q : ℚ) : ℤ :=
  if Int.fract q < 1/2 then ⌊q⌋
  else if 1/2 < Int.fract q then ⌊q⌋ + 1
  else if ⌊q⌋ % 2 = 0 then ⌊q⌋ else ⌊q⌋ + 1

/-- `atm_strike = round(spot_price / step_size) * step_size`
(`src/app.py:124`). -/
def atm_strike (spot_price : ℚ) (step_size : ℤ) : ℤ :=
  rnd (spot_price / (step_size : ℚ)) * step_size

/-- The `strikes` dict built at `src/app.py:126-132`. -/
structure Strikes where
  atm : ℤ
  sd1_up : ℤ
  sd1_dn : ℤ
  sd2_up : ℤ
  sd2_dn : ℤ
deriving DecidableEq

/-- Strike ladder of `src/app.py:126-132`: fixed multiples of the step
around the ATM strike (no dependence on any premium). -/
def mk_strikes (atm step_size : ℤ) : Strikes :=
  { atm := atm
    sd1_up := atm + 1 * step_size
    sd1_dn := atm - 1 * step_size
    sd2_up := atm + 2 * step_size
    sd2_dn := atm - 2 * step_size }

/-- `s.replace('|', ':')` for a one-character pattern is a character map
(`src/app.py:95` and `src/app.py:188`). -/
def pipeToColon (s : String) : String :=
  ⟨s.data.map (fun c => if c = '|' then ':' else c)⟩

/-- Python dict read `d.get(k)` / `d[k]` on a string-keyed dict,
modelled on an association list with unique keys. -/
def dget {α : Type} : List (String × α) → String → Option α
  | [], _ => none
  | (k', v) :: rest, k => if k = k' then some v else dget rest k

/-- `symbol_map` of `src/app.py:80-83` (the selectbox restricts the
symbol to these two values). -/
def symbol_map (symbol : String) : String :=
  if symbol = "NIFTY" then "NSE_INDEX|Nifty 50" else "NSE_INDEX|Nifty Bank"

/-- Outcome of one HTTP LTP call as seen after `response.json()`:
`exn` = anything inside the `try` raised (network error, timeout,
malformed payload); `payload status data` = parsed JSON with its status
field and its `data` object as a key→last_price mapping. -/
inductive QuoteResponse where
  | exn : QuoteResponse
  | payload (status : String) (data : List (String × ℚ)) : QuoteResponse

/-- Result of a fetch helper: the returned value (`none` models Python
`return None`) and the `st.error` message emitted, if any. -/
structure FetchResult (α : Type) where
  value : Option α
  errMsg : Option String
deriving DecidableEq

/-- `fetch_spot_price` (`src/app.py:77-99`): on success status, read
`data['data'][instrument_key.replace('|', ':')]['last_price']`; a missing
key raises KeyError, caught by the blanket `except` which reports an
error and falls through to `return None`; a non-success status falls
through to `return None` silently. -/
def fetch_spot_price (resp : QuoteResponse) (instrument_key : String) :
    FetchResult ℚ :=
  match resp with
  | .exn => ⟨none, some "Error fetching Spot"⟩
  | .payload status data =>
    if status = "success" then
      match dget data (pipeToColon instrument_key) with
      | some p => ⟨some p, none⟩
      | none => ⟨none, some "Error fetching Spot"⟩
    else ⟨none, none⟩

/-- The price dictionary built in the success branch of `get_premiums`
(`src/app.py:185-191`): for every requested key, look the pipe→colon
translation up in the response data, defaulting a miss to 0. -/
def get_premiums (keys_dict : List (String × String))
    (data : List (String × ℚ)) : List (String × ℚ) :=
  keys_dict.map (fun kv => (kv.1, (dget data (pipeToColon kv.2)).getD 0))

/-- `get_premiums` (`src/app.py:166-194`) including its guard
(`if not keys_dict: return None`), the `try`/`except` and the status
check. -/
def get_premiums_resp (keys_dict : List (String × String))
    (resp : QuoteResponse) : FetchResult (List (String × ℚ)) :=
  if keys_dict = [] then ⟨none, none⟩
  else
    match resp with
    | .exn => ⟨none, some "Premium Fetch Error"⟩
    | .payload status data =>
      if status = "success" then ⟨some (get_premiums keys_dict data), none⟩
      else ⟨none, none⟩

/-- The three combined-premium values of `src/app.py:246-248`:
`premiums.get(NAME, 0)` sums per band. -/
def band_vals (premiums : List (String × ℚ)) : ℚ × ℚ × ℚ :=
  ((dget premiums "ATM_CE").getD 0 + (dget premiums "ATM_PE").getD 0,
   (dget premiums "1SD_CE").getD 0 + (dget premiums "1SD_PE").getD 0,
   (dget premiums "2SD_CE").getD 0 + (dget premiums "2SD_PE").getD 0)

/-- One row of `st.session_state.chart_data` (`src/app.py:252-257`). -/
structure Row where
  time : String
  atm_straddle : ℚ
  strangle_1sd : ℚ
  strangle_2sd : ℚ

/-- The chart-data update of `src/app.py:244-258`: `if premiums:` guard,
compute the three values, then `pd.concat` appends one row at the end.
Returns the new buffer and the warning messages emitted. -/
def main_update (premiums : Option (List (String × ℚ))) (buf : List Row)
    (t : String) : List Row × List String :=
  match premiums with
  | none => (buf, ["Could not fetch premiums. Market might be closed or Token Invalid."])
  | some prem =>
    if prem = [] then
      (buf, ["Could not fetch premiums. Market might be closed or Token Invalid."])
    else
      (buf ++ [⟨t, (band_vals prem).1, (band_vals prem).2.1, (band_vals prem).2.2⟩], [])

/-- One append to the session buffer: `pd.concat([chart_data, [row]])`
(`src/app.py:258`).  Nothing in `src/app.py` ever removes rows. -/
def append_row (buf : List Row) (r : Row) : List Row := buf ++ [r]

/-- A whole sequence of appends (one per refresh cycle). -/
def append_rows (buf : List Row) (rs : List Row) : List Row :=
  rs.foldl append_row buf

/-- One entry of the option-chain response array (`src/app.py:140-158`):
strike price (a JSON number, modelled as ℚ) and the two instrument keys. -/
structure ChainItem where
  strike_price : ℚ
  ce_key : String
  pe_key : String

/-- Outcome of the option-chain HTTP call, like `QuoteResponse`. -/
inductive ChainResponse where
  | exn : ChainResponse
  | payload (status : String) (items : List ChainItem) : ChainResponse

/-- Python dict assignment `d[k] = v` on a string-keyed dict modelled as
an insertion-ordered association list: an existing key keeps its
position and gets the new value, a new key is appended. -/
def dictInsert (d : List (String × String)) (k v : String) :
    List (String × String) :=
  if d.any (fun p => p.1 == k) then
    d.map (fun p => if p.1 == k then (k, v) else p)
  else d ++ [(k, v)]

/-- The per-item body of the `for item in chain_data` loop at
`src/app.py:140-158`, filling `found_keys`. -/
def found_keys_step (s : Strikes) (d : List (String × String))
    (item : ChainItem) : List (String × String) :=
  let d1 := if item.strike_price = (s.atm : ℚ) then
      dictInsert (dictInsert d "ATM_CE" item.ce_key) "ATM_PE" item.pe_key
    else d
  let d2 := if item.strike_price = (s.sd1_dn : ℚ) then
      dictInsert d1 "1SD_PE" item.pe_key else d1
  let d3 := if item.strike_price = (s.sd1_up : ℚ) then
      dictInsert d2 "1SD_CE" item.ce_key else d2
  let d4 := if item.strike_price = (s.sd2_dn : ℚ) then
      dictInsert d3 "2SD_PE" item.pe_key else d3
  if item.strike_price = (s.sd2_up : ℚ) then
    dictInsert d4 "2SD_CE" item.ce_key else d4

/-- Outcome of `get_option_chain_keys` as observed by its caller at
`src/app.py:235`: `ok` = the `return found_keys, strikes` path;
`failed` = the `except` path, which returns the pair `(None, None)`
(so unpacking succeeds and `keys` is falsy); `crash` = the non-success
path, which returns a bare `None` that the caller cannot unpack
(an uncaught TypeError). -/
inductive ChainResult where
  | crash : ChainResult
  | failed : ChainResult
  | ok (keys : List (String × String)) (s : Strikes) : ChainResult

/-- `get_option_chain_keys` (`src/app.py:101-164`): compute the ATM
strike and the fixed-step ladder, then scan the chain for the five
target strikes. -/
def get_option_chain_keys (resp : ChainResponse) (spot_price : ℚ)
    (step_size : ℤ) : ChainResult :=
  match resp with
  | .exn => .failed
  | .payload status items =>
    if status = "success" then
      let s := mk_strikes (atm_strike spot_price step_size) step_size
      .ok (items.foldl (found_keys_step s) []) s
    else .crash

/-- The pipeline steps of the main script, for tracing which external
calls and state mutations happen in a run. -/
inductive PipelineStep where
  | spotFetch
  | chainFetch
  | premiumFetch
  | accumAppend
deriving DecidableEq

/-- The environment of one run of the main script: what each HTTP call
would return. -/
structure Env where
  spotResp : QuoteResponse
  chainResp : ChainResponse
  premResp : QuoteResponse

/-- The message of `src/app.py:313`, shown when no token is entered. -/
def tokenInfoMsg : String :=
  "👋 Enter your Upstox API Token in the sidebar to begin."

/-- The main script body of `src/app.py:224-313`: the `if ACCESS_TOKEN:`
gate (Python truthiness: the empty string is falsy), then
spot fetch → chain fetch → premium fetch → buffer append, with the
`if spot_price:` and `if keys and strikes:` and `if premiums:` guards
(number truthiness: 0 is falsy; dict truthiness: empty is falsy).
Returns the trace of pipeline steps reached, the new buffer, and the
top-level user messages emitted. -/
def main_script (token symbol : String) (env : Env) (step_size : ℤ)
    (buf : List Row) (t : String) :
    List PipelineStep × List Row × List String :=
  if token = "" then ([], buf, [tokenInfoMsg])
  else
    if (fetch_spot_price env.spotResp (symbol_map symbol)).value.getD 0 = 0 then
      ([.spotFetch], buf, ["Spot Price Fetch Failed. Check Token."])
    else
      match get_option_chain_keys env.chainResp
          ((fetch_spot_price env.spotResp (symbol_map symbol)).value.getD 0)
          step_size with
      | .crash => ([.spotFetch, .chainFetch], buf, ["TypeError: cannot unpack non-iterable NoneType object"])
      | .failed => ([.spotFetch, .chainFetch], buf, ["Could not find matching strikes in Option Chain."])
      | .ok keys _s =>
        if keys = [] then
          ([.spotFetch, .chainFetch], buf, ["Could not find matching strikes in Option Chain."])
        else
          match (get_premiums_resp keys env.premResp).value with
          | none => ([.spotFetch, .chainFetch, .premiumFetch], buf,
              ["Could not fetch premiums. Market might be closed or Token Invalid."])
          | some prem =>
            if prem = [] then
              ([.spotFetch, .chainFetch, .premiumFetch], buf,
                ["Could not fetch premiums. Market might be closed or Token Invalid."])
            else
              ([.spotFetch, .chainFetch, .premiumFetch, .accumAppend],
               append_row buf
                 ⟨t, (band_vals prem).1, (band_vals prem).2.1, (band_vals prem).2.2⟩,
               [])

/-- Modelled from the spec: the straddle-width band policy
(spec §4.3 step 3) is not implemented in `src/` — `src/app.py:126-132`
implements only the fixed-step policy.  Per the spec, the band width at
multiplier `m` is `round(atmPremium * m / tickStep) * tickStep`. -/
def straddle_band_width (atmPremium : ℚ) (m : ℚ) (tickStep : ℤ) : ℤ :=
  rnd (atmPremium * m / (tickStep : ℚ)) * tickStep

/-- Modelled from the spec: under the straddle-width policy the band at
multiplier `m` has upper strike ATM + width and lower strike
ATM − width. -/
def straddle_band (atm : ℤ) (atmPremium : ℚ) (m : ℚ) (tickStep : ℤ) :
    ℤ × ℤ :=
  (atm + straddle_band_width atmPremium m tickStep,
   atm - straddle_band_width atmPremium m tickStep)

/-- `days_ahead` of `get_next_thursday` (`src/app.py:68-75`): Python
`weekday()` is 0 for Monday … 6 for Sunday, Thursday is 3;
`days_ahead = 3 - weekday`, bumped by 7 when ≤ 0. -/
def days_ahead_calc (weekday : ℤ) : ℤ :=
  if 3 - weekday ≤ 0 then 3 - weekday + 7 else 3 - weekday

/-- `get_next_thursday` on days numbered so that day `n` has Python
weekday `n % 7` (day 0 a Monday): `today + timedelta(days=days_ahead)`. -/
def get_next_thursday (today : ℤ) : ℤ :=
  today + days_ahead_calc (today % 7)

/-! ## Helper lemmas -/

theorem rnd_abs_le (q : ℚ) : |(rnd q : ℚ) - q| ≤ 1/2 := by
  have h0 : 0 ≤ Int.fract q := Int.fract_nonneg q
  have h1 : Int.fract q < 1 := Int.fract_lt_one q
  have hf : (⌊q⌋ : ℚ) = q - Int.fract q := (Int.self_sub_fract q).symm
  rw [abs_le]
  unfold rnd
  split_ifs with hlt hgt hev <;> push_cast <;>
    refine ⟨?_, ?_⟩ <;> rw [hf] <;> linarith

theorem get_premiums_dget (data : List (String × ℚ))
    (kd : List (String × String)) (k v : String)
    (hnd : (kd.map Prod.fst).Nodup) (hmem : (k, v) ∈ kd) :
    dget (get_premiums kd data) k
      = some ((dget data (pipeToColon v)).getD 0) := by
  induction kd with
  | nil => simp at hmem
  | cons hd tl ih =>
    obtain ⟨k', v'⟩ := hd
    rw [List.map_cons, List.nodup_cons] at hnd
    rcases List.mem_cons.mp hmem with h | h
    · injection h with h1 h2
      subst h1; subst h2
      simp [get_premiums, dget]
    · by_cases hk : k = k'
      · subst hk
        exact absurd (List.mem_map_of_mem Prod.fst h) hnd.1
      · have htl := ih hnd.2 h
        calc dget (get_premiums ((k', v') :: tl) data) k
            = dget (get_premiums tl data) k := by
              simp [get_premiums, dget, hk]
          _ = some ((dget data (pipeToColon v)).getD 0) := htl

theorem get_premiums_map_fst (kd : List (String × String))
    (data : List (String × ℚ)) :
    (get_premiums kd data).map Prod.fst = kd.map Prod.fst := by
  induction kd with
  | nil => rfl
  | cons hd tl ih => simp [get_premiums] at ih ⊢

theorem dget_get_premiums_not_mem (kd : List (String × String))
    (data : List (String × ℚ)) (name : String)
    (h : name ∉ kd.map Prod.fst) :
    dget (get_premiums kd data) name = none := by
  induction kd with
  | nil => rfl
  | cons hd tl ih =>
    obtain ⟨k', v'⟩ := hd
    rw [List.map_cons] at h
    have h1 : name ≠ k' := by
      intro e; exact h (by simp [e])
    have h2 : name ∉ tl.map Prod.fst := by
      intro e; exact h (by simp [e])
    calc dget (get_premiums ((k', v') :: tl) data) name
        = dget (get_premiums tl data) name := by simp [get_premiums, dget, h1]
      _ = none := ih h2

theorem dget_get_premiums_congr (kd : List (String × String))
    (data data2 : List (String × ℚ)) (name : String)
    (hnd : (kd.map Prod.fst).Nodup)
    (hagree : ∀ v', (name, v') ∈ kd →
      dget data2 (pipeToColon v') = dget data (pipeToColon v')) :
    dget (get_premiums kd data2) name = dget (get_premiums kd data) name := by
  by_cases hmem : name ∈ kd.map Prod.fst
  · obtain ⟨p, hp, he⟩ := List.mem_map.mp hmem
    obtain ⟨k0, v0⟩ := p
    have hk : k0 = name := he
    subst hk
    rw [get_premiums_dget data kd k0 v0 hnd hp,
        get_premiums_dget data2 kd k0 v0 hnd hp, hagree v0 hp]
  · rw [dget_get_premiums_not_mem kd data2 name hmem,
        dget_get_premiums_not_mem kd data name hmem]

theorem band_other_congr (kd : List (String × String))
    (data data2 : List (String × ℚ)) (a b : String)
    (hnd : (kd.map Prod.fst).Nodup)
    (ha : ∀ v', (a, v') ∈ kd →
      dget data2 (pipeToColon v') = dget data (pipeToColon v'))
    (hb : ∀ v', (b, v') ∈ kd →
      dget data2 (pipeToColon v') = dget data (pipeToColon v')) :
    (dget (get_premiums kd data2) a).getD 0
        + (dget (get_premiums kd data2) b).getD 0
      = (dget (get_premiums kd data) a).getD 0
        + (dget (get_premiums kd data) b).getD 0 := by
  rw [dget_get_premiums_congr kd data data2 a hnd ha,
      dget_get_premiums_congr kd data data2 b hnd hb]

theorem append_rows_append (buf rs : List Row) :
    append_rows buf rs = buf ++ rs := by
  induction rs generalizing buf with
  | nil => simp [append_rows]
  | cons r rs ih =>
    have h : append_rows buf (r :: rs) = append_rows (buf ++ [r]) rs := rfl
    rw [h, ih, List.append_assoc]
    rfl

/-! ## Claim theorems -/

/-- C3 counterexample: the session buffer has no cap.  Taking the
spec's smallest observed cap N = 50, after 51 appends starting from an
empty buffer the buffer holds 51 rows, exceeding the cap. -/
theorem C3_cap_counterexample :
    (append_rows [] (List.replicate 51 (⟨"t", 0, 0, 0⟩ : Row))).length = 51 ∧
      ¬ (append_rows [] (List.replicate 51 (⟨"t", 0, 0, 0⟩ : Row))).length ≤ 50 := by
  have h := append_rows_append [] (List.replicate 51 (⟨"t", 0, 0, 0⟩ : Row))
  rw [h]
  simp

/-- C3 amended: the chart-data buffer is unbounded.  A sequence of
appends retains every appended row after the initial contents, in FIFO
(oldest-first) order, and the length grows by exactly the number of
appends — there is no cap and no eviction in `src/app.py`. -/
theorem C3_append_unbounded_fifo (buf rs : List Row) :
    append_rows buf rs = buf ++ rs ∧
      (append_rows buf rs).length = buf.length + rs.length := by
  refine ⟨append_rows_append buf rs, ?_⟩
  rw [append_rows_append]
  simp

/-- C4: the computed ATM strike equals `round(spot / step) * step` with
Python's round-half-to-even; it is an exact multiple of the step and is
within step/2 of the spot price. -/
theorem C4_atm_strike_correct (spot : ℚ) (step : ℤ) (h : 0 < step) :
    atm_strike spot step = rnd (spot / (step : ℚ)) * step ∧
      step ∣ atm_strike spot step ∧
      |((atm_strike spot step : ℤ) : ℚ) - spot| ≤ (step : ℚ) / 2 := by
  have hsq : (0 : ℚ) < (step : ℚ) := by exact_mod_cast h
  have hx : spot / (step : ℚ) * (step : ℚ) = spot :=
    div_mul_cancel₀ spot (ne_of_gt hsq)
  refine ⟨rfl, dvd_mul_left step (rnd (spot / (step : ℚ))), ?_⟩
  have hrw : ((atm_strike spot step : ℤ) : ℚ) - spot
      = ((rnd (spot / (step : ℚ)) : ℚ) - spot / (step : ℚ)) * (step : ℚ) := by
    unfold atm_strike
    push_cast
    rw [sub_mul, hx]
  rw [hrw, abs_mul, abs_of_pos hsq]
  calc |(rnd (spot / (step : ℚ)) : ℚ) - spot / (step : ℚ)| * (step : ℚ)
      ≤ (1/2) * (step : ℚ) :=
        mul_le_mul_of_nonneg_right (rnd_abs_le (spot / (step : ℚ))) (le_of_lt hsq)
    _ = (step : ℚ) / 2 := by ring

/-- C4 witness: spot 24687 with step 50. -/
theorem C4_atm_strike_correct_witness :
    0 < (50 : ℤ) ∧
      (atm_strike 24687 50 = rnd ((24687 : ℚ) / ((50 : ℤ) : ℚ)) * 50 ∧
        (50 : ℤ) ∣ atm_strike 24687 50 ∧
        |((atm_strike 24687 50 : ℤ) : ℚ) - 24687| ≤ (((50 : ℤ) : ℚ)) / 2) :=
  ⟨by norm_num, C4_atm_strike_correct 24687 50 (by norm_num)⟩

/-- C5: the fixed-step ladder of `src/app.py:126-132` places each band
at ATM ± k·step for k = 1, 2 (taking no premium input at all), so it is
symmetric about the ATM strike. -/
theorem C5_fixed_step_bands (atm step : ℤ) (h : 0 < step) :
    (mk_strikes atm step).sd1_up = atm + 1 * step ∧
      (mk_strikes atm step).sd1_dn = atm - 1 * step ∧
      (mk_strikes atm step).sd2_up = atm + 2 * step ∧
      (mk_strikes atm step).sd2_dn = atm - 2 * step ∧
      (mk_strikes atm step).sd1_up + (mk_strikes atm step).sd1_dn = 2 * atm ∧
      (mk_strikes atm step).sd2_up + (mk_strikes atm step).sd2_dn = 2 * atm := by
  refine ⟨rfl, rfl, rfl, rfl, ?_, ?_⟩ <;> simp [mk_strikes] <;> ring

/-- C5 witness: ATM 24700 with step 50. -/
theorem C5_fixed_step_bands_witness :
    0 < (50 : ℤ) ∧
      ((mk_strikes 24700 50).sd1_up = 24700 + 1 * 50 ∧
        (mk_strikes 24700 50).sd1_dn = 24700 - 1 * 50 ∧
        (mk_strikes 24700 50).sd2_up = 24700 + 2 * 50 ∧
        (mk_strikes 24700 50).sd2_dn = 24700 - 2 * 50 ∧
        (mk_strikes 24700 50).sd1_up + (mk_strikes 24700 50).sd1_dn = 2 * 24700 ∧
        (mk_strikes 24700 50).sd2_up + (mk_strikes 24700 50).sd2_dn = 2 * 24700) :=
  ⟨by norm_num, C5_fixed_step_bands 24700 50 (by norm_num)⟩

/-- C10: `get_next_thursday` always lands on a Thursday (weekday 3),
strictly after today, at most 7 days ahead; invoked on a Thursday it
returns the Thursday one week later. -/
theorem C10_next_thursday (today : ℤ) :
    get_next_thursday today % 7 = 3 ∧
      today < get_next_thursday today ∧
      get_next_thursday today ≤ today + 7 ∧
      (today % 7 = 3 → get_next_thursday today = today + 7) := by
  unfold get_next_thursday days_ahead_calc
  split_ifs with h
  · refine ⟨?_, ?_, ?_, ?_⟩ <;> omega
  · refine ⟨?_, ?_, ?_, ?_⟩ <;> omega

/-- C10 witness: day 3 (a Thursday) maps to day 10, the next Thursday. -/
theorem C10_next_thursday_witness :
    get_next_thursday 3 % 7 = 3 ∧
      (3 : ℤ) < get_next_thursday 3 ∧
      get_next_thursday 3 ≤ 3 + 7 ∧
      ((3 : ℤ) % 7 = 3 → get_next_thursday 3 = 3 + 7) :=
  C10_next_thursday 3

/-- C1: under the straddle-width policy (modelled from the spec — the
file in `src/` implements only the fixed-step policy), the band at each
multiplier m ∈ {1.0, 1.5, 2.0} has width round(atmPremium·m/step)·step
with upper = ATM + width and lower = ATM − width; for spot 24687,
step 50, atmPremium 212 the 1.0 SD band is 24900 / 24500. -/
theorem C1_straddle_width_policy (atm : ℤ) (atmPremium : ℚ) (tickStep : ℤ)
    (m : ℚ) (hp : 0 < atmPremium) (hs : 0 < tickStep)
    (hm : m = 1 ∨ m = 3/2 ∨ m = 2) :
    (straddle_band atm atmPremium m tickStep).1
        = atm + rnd (atmPremium * m / (tickStep : ℚ)) * tickStep ∧
      (straddle_band atm atmPremium m tickStep).2
        = atm - rnd (atmPremium * m / (tickStep : ℚ)) * tickStep ∧
      atm_strike 24687 50 = 24700 ∧
      straddle_band 24700 212 1 50 = (24900, 24500) := by
  refine ⟨rfl, rfl, ?_, ?_⟩
  · norm_num [atm_strike, rnd, Int.fract]
  · norm_num [straddle_band, straddle_band_width, rnd, Int.fract]

/-- C1 witness: the 1.0 SD band for ATM 24700, premium 212, step 50. -/
theorem C1_straddle_width_policy_witness :
    0 < (212 : ℚ) ∧ 0 < (50 : ℤ) ∧
      ((1 : ℚ) = 1 ∨ (1 : ℚ) = 3/2 ∨ (1 : ℚ) = 2) ∧
      ((straddle_band 24700 212 1 50).1
          = 24700 + rnd ((212 : ℚ) * 1 / ((50 : ℤ) : ℚ)) * 50 ∧
        (straddle_band 24700 212 1 50).2
          = 24700 - rnd ((212 : ℚ) * 1 / ((50 : ℤ) : ℚ)) * 50 ∧
        atm_strike 24687 50 = 24700 ∧
        straddle_band 24700 212 1 50 = (24900, 24500)) :=
  ⟨by norm_num, by norm_num, Or.inl rfl,
    C1_straddle_width_policy 24700 212 50 1 (by norm_num) (by norm_num)
      (Or.inl rfl)⟩

/-- C2 counterexample: with the ATM call quoted at 110 and the ATM put
absent from the response, the premium fetch succeeds (no failure
result: the missing leg is silently priced 0), `val_atm` is 110, and a
row IS appended to the empty buffer, so its length becomes 1. -/
theorem C2_atm_leg_missing_counterexample :
    (get_premiums_resp [("ATM_CE", "NSE_FO|A"), ("ATM_PE", "NSE_FO|B")]
          (QuoteResponse.payload "success" [("NSE_FO:A", (110 : ℚ))])).value
        = some [("ATM_CE", 110), ("ATM_PE", 0)] ∧
      (band_vals [("ATM_CE", (110 : ℚ)), ("ATM_PE", 0)]).1 = 110 ∧
      (main_update (some [("ATM_CE", (110 : ℚ)), ("ATM_PE", 0)]) []
          "10:00:00").1.length = 1 := by
  refine ⟨by decide, ?_, by decide⟩
  simp [band_vals, dget]

/-- C2 amended: when exactly one ATM leg has a quote, the computation
does not fail: the missing leg's price defaults to 0, `val_atm` equals
the available leg's price, the premium mapping is still returned as a
success, and a row IS appended (the buffer length grows by one). -/
theorem C2_atm_leg_missing_amended (kd : List (String × String))
    (data : List (String × ℚ)) (vce vpe : String) (p : ℚ)
    (buf : List Row) (t : String)
    (hnd : (kd.map Prod.fst).Nodup)
    (hce : ("ATM_CE", vce) ∈ kd) (hpe : ("ATM_PE", vpe) ∈ kd)
    (hp : dget data (pipeToColon vce) = some p)
    (hmiss : dget data (pipeToColon vpe) = none) :
    (get_premiums_resp kd (QuoteResponse.payload "success" data)).value
        = some (get_premiums kd data) ∧
      (band_vals (get_premiums kd data)).1 = p ∧
      (main_update (some (get_premiums kd data)) buf t).1.length
        = buf.length + 1 := by
  have hkd : kd ≠ [] := by rintro rfl; simp at hce
  have h1 := get_premiums_dget data kd "ATM_CE" vce hnd hce
  have h2 := get_premiums_dget data kd "ATM_PE" vpe hnd hpe
  refine ⟨?_, ?_, ?_⟩
  · simp [get_premiums_resp, hkd]
  · simp [band_vals, h1, h2, hp, hmiss]
  · have hne : get_premiums kd data ≠ [] := by
      cases kd with
      | nil => exact absurd rfl hkd
      | cons a l => simp [get_premiums]
    simp [main_update, hne]

/-- C2 amended witness: concrete request with ATM put missing. -/
theorem C2_atm_leg_missing_amended_witness :
    ((([("ATM_CE", "NSE_FO|A"), ("ATM_PE", "NSE_FO|B")] :
          List (String × String)).map Prod.fst).Nodup) ∧
      ("ATM_CE", "NSE_FO|A") ∈
        [("ATM_CE", "NSE_FO|A"), ("ATM_PE", "NSE_FO|B")] ∧
      ("ATM_PE", "NSE_FO|B") ∈
        [("ATM_CE", "NSE_FO|A"), ("ATM_PE", "NSE_FO|B")] ∧
      dget [("NSE_FO:A", (110 : ℚ))] (pipeToColon "NSE_FO|A") = some 110 ∧
      dget [("NSE_FO:A", (110 : ℚ))] (pipeToColon "NSE_FO|B") = none ∧
      ((get_premiums_resp [("ATM_CE", "NSE_FO|A"), ("ATM_PE", "NSE_FO|B")]
            (QuoteResponse.payload "success" [("NSE_FO:A", (110 : ℚ))])).value
          = some (get_premiums [("ATM_CE", "NSE_FO|A"), ("ATM_PE", "NSE_FO|B")]
              [("NSE_FO:A", (110 : ℚ))]) ∧
        (band_vals (get_premiums [("ATM_CE", "NSE_FO|A"), ("ATM_PE", "NSE_FO|B")]
            [("NSE_FO:A", (110 : ℚ))])).1 = 110 ∧
        (main_update (some (get_premiums
            [("ATM_CE", "NSE_FO|A"), ("ATM_PE", "NSE_FO|B")]
            [("NSE_FO:A", (110 : ℚ))])) [] "10:00:00").1.length
          = List.length ([] : List Row) + 1) :=
  ⟨by decide, by decide, by decide, by decide, by decide,
    C2_atm_leg_missing_amended
      [("ATM_CE", "NSE_FO|A"), ("ATM_PE", "NSE_FO|B")]
      [("NSE_FO:A", (110 : ℚ))] "NSE_FO|A" "NSE_FO|B" 110 [] "10:00:00"
      (by decide) (by decide) (by decide) (by decide) (by decide)⟩

/-- C6: for any non-ATM band and either of its legs, a leg whose
identifier has no quote in the response is priced 0; that band's
combined value is just the other (available) leg's price; every
requested key is still present in the returned mapping and the fetch
as a whole still succeeds; and all other bands are unaffected: their
values are determined by their own legs' quotes alone, so they are
identical under any response that agrees on the non-missing legs. -/
theorem C6_partial_miss_zero (kd : List (String × String))
    (data : List (String × ℚ)) (leg v : String)
    (hnd : (kd.map Prod.fst).Nodup)
    (hleg : leg = "1SD_CE" ∨ leg = "1SD_PE" ∨ leg = "2SD_CE" ∨ leg = "2SD_PE")
    (hmem : (leg, v) ∈ kd)
    (hmiss : dget data (pipeToColon v) = none) :
    dget (get_premiums kd data) leg = some 0 ∧
      (get_premiums kd data).map Prod.fst = kd.map Prod.fst ∧
      (get_premiums_resp kd (QuoteResponse.payload "success" data)).value
        = some (get_premiums kd data) ∧
      (leg = "1SD_CE" → (band_vals (get_premiums kd data)).2.1
          = (dget (get_premiums kd data) "1SD_PE").getD 0) ∧
      (leg = "1SD_PE" → (band_vals (get_premiums kd data)).2.1
          = (dget (get_premiums kd data) "1SD_CE").getD 0) ∧
      (leg = "2SD_CE" → (band_vals (get_premiums kd data)).2.2
          = (dget (get_premiums kd data) "2SD_PE").getD 0) ∧
      (leg = "2SD_PE" → (band_vals (get_premiums kd data)).2.2
          = (dget (get_premiums kd data) "2SD_CE").getD 0) ∧
      (∀ data2 : List (String × ℚ),
        (∀ k' v', (k', v') ∈ kd → k' ≠ leg →
          dget data2 (pipeToColon v') = dget data (pipeToColon v')) →
        (band_vals (get_premiums kd data2)).1
            = (band_vals (get_premiums kd data)).1 ∧
          ((leg = "1SD_CE" ∨ leg = "1SD_PE") →
            (band_vals (get_premiums kd data2)).2.2
              = (band_vals (get_premiums kd data)).2.2) ∧
          ((leg = "2SD_CE" ∨ leg = "2SD_PE") →
            (band_vals (get_premiums kd data2)).2.1
              = (band_vals (get_premiums kd data)).2.1)) := by
  have h0 := get_premiums_dget data kd leg v hnd hmem
  have h1 : dget (get_premiums kd data) leg = some 0 := by
    rw [h0, hmiss]; rfl
  have hkd : kd ≠ [] := by rintro rfl; simp at hmem
  refine ⟨h1, get_premiums_map_fst kd data, ?_, ?_, ?_, ?_, ?_, ?_⟩
  · simp [get_premiums_resp, hkd]
  · intro he; subst he; simp [band_vals, h1]
  · intro he; subst he; simp [band_vals, h1]
  · intro he; subst he; simp [band_vals, h1]
  · intro he; subst he; simp [band_vals, h1]
  · intro data2 hagree
    rcases hleg with he | he | he | he <;> subst he
    · exact ⟨band_other_congr kd data data2 "ATM_CE" "ATM_PE" hnd
          (fun v' hm => hagree _ v' hm (by decide))
          (fun v' hm => hagree _ v' hm (by decide)),
        fun _ => band_other_congr kd data data2 "2SD_CE" "2SD_PE" hnd
          (fun v' hm => hagree _ v' hm (by decide))
          (fun v' hm => hagree _ v' hm (by decide)),
        fun hc => absurd hc (by decide)⟩
    · exact ⟨band_other_congr kd data data2 "ATM_CE" "ATM_PE" hnd
          (fun v' hm => hagree _ v' hm (by decide))
          (fun v' hm => hagree _ v' hm (by decide)),
        fun _ => band_other_congr kd data data2 "2SD_CE" "2SD_PE" hnd
          (fun v' hm => hagree _ v' hm (by decide))
          (fun v' hm => hagree _ v' hm (by decide)),
        fun hc => absurd hc (by decide)⟩
    · exact ⟨band_other_congr kd data data2 "ATM_CE" "ATM_PE" hnd
          (fun v' hm => hagree _ v' hm (by decide))
          (fun v' hm => hagree _ v' hm (by decide)),
        fun hc => absurd hc (by decide),
        fun _ => band_other_congr kd data data2 "1SD_CE" "1SD_PE" hnd
          (fun v' hm => hagree _ v' hm (by decide))
          (fun v' hm => hagree _ v' hm (by decide))⟩
    · exact ⟨band_other_congr kd data data2 "ATM_CE" "ATM_PE" hnd
          (fun v' hm => hagree _ v' hm (by decide))
          (fun v' hm => hagree _ v' hm (by decide)),
        fun hc => absurd hc (by decide),
        fun _ => band_other_congr kd data data2 "1SD_CE" "1SD_PE" hnd
          (fun v' hm => hagree _ v' hm (by decide))
          (fun v' hm => hagree _ v' hm (by decide))⟩

/-- C6 witness: 1 SD call quoted at 55, 1 SD put requested but absent
from the response. -/
theorem C6_partial_miss_zero_witness :
    ((([("1SD_CE", "NSE_FO|C"), ("1SD_PE", "NSE_FO|D")] :
          List (String × String)).map Prod.fst).Nodup) ∧
      ("1SD_PE" = "1SD_CE" ∨ "1SD_PE" = "1SD_PE" ∨
        "1SD_PE" = "2SD_CE" ∨ "1SD_PE" = "2SD_PE") ∧
      ("1SD_PE", "NSE_FO|D") ∈
        [("1SD_CE", "NSE_FO|C"), ("1SD_PE", "NSE_FO|D")] ∧
      dget [("NSE_FO:C", (55 : ℚ))] (pipeToColon "NSE_FO|D") = none ∧
      (dget (get_premiums [("1SD_CE", "NSE_FO|C"), ("1SD_PE", "NSE_FO|D")]
            [("NSE_FO:C", (55 : ℚ))]) "1SD_PE" = some 0 ∧
        (get_premiums [("1SD_CE", "NSE_FO|C"), ("1SD_PE", "NSE_FO|D")]
            [("NSE_FO:C", (55 : ℚ))]).map Prod.fst
          = ([("1SD_CE", "NSE_FO|C"), ("1SD_PE", "NSE_FO|D")] :
              List (String × String)).map Prod.fst ∧
        (get_premiums_resp [("1SD_CE", "NSE_FO|C"), ("1SD_PE", "NSE_FO|D")]
            (QuoteResponse.payload "success" [("NSE_FO:C", (55 : ℚ))])).value
          = some (get_premiums [("1SD_CE", "NSE_FO|C"), ("1SD_PE", "NSE_FO|D")]
              [("NSE_FO:C", (55 : ℚ))]) ∧
        ("1SD_PE" = "1SD_CE" →
          (band_vals (get_premiums [("1SD_CE", "NSE_FO|C"), ("1SD_PE", "NSE_FO|D")]
              [("NSE_FO:C", (55 : ℚ))])).2.1
            = (dget (get_premiums [("1SD_CE", "NSE_FO|C"), ("1SD_PE", "NSE_FO|D")]
                [("NSE_FO:C", (55 : ℚ))]) "1SD_PE").getD 0) ∧
        ("1SD_PE" = "1SD_PE" →
          (band_vals (get_premiums [("1SD_CE", "NSE_FO|C"), ("1SD_PE", "NSE_FO|D")]
              [("NSE_FO:C", (55 : ℚ))])).2.1
            = (dget (get_premiums [("1SD_CE", "NSE_FO|C"), ("1SD_PE", "NSE_FO|D")]
                [("NSE_FO:C", (55 : ℚ))]) "1SD_CE").getD 0) ∧
        ("1SD_PE" = "2SD_CE" →
          (band_vals (get_premiums [("1SD_CE", "NSE_FO|C"), ("1SD_PE", "NSE_FO|D")]
              [("NSE_FO:C", (55 : ℚ))])).2.2
            = (dget (get_premiums [("1SD_CE", "NSE_FO|C"), ("1SD_PE", "NSE_FO|D")]
                [("NSE_FO:C", (55 : ℚ))]) "2SD_PE").getD 0) ∧
        ("1SD_PE" = "2SD_PE" →
          (band_vals (get_premiums [("1SD_CE", "NSE_FO|C"), ("1SD_PE", "NSE_FO|D")]
              [("NSE_FO:C", (55 : ℚ))])).2.2
            = (dget (get_premiums [("1SD_CE", "NSE_FO|C"), ("1SD_PE", "NSE_FO|D")]
                [("NSE_FO:C", (55 : ℚ))]) "2SD_CE").getD 0) ∧
        (∀ data2 : List (String × ℚ),
          (∀ k' v', (k', v') ∈
              ([("1SD_CE", "NSE_FO|C"), ("1SD_PE", "NSE_FO|D")] :
                List (String × String)) → k' ≠ "1SD_PE" →
            dget data2 (pipeToColon v')
              = dget [("NSE_FO:C", (55 : ℚ))] (pipeToColon v')) →
          (band_vals (get_premiums [("1SD_CE", "NSE_FO|C"), ("1SD_PE", "NSE_FO|D")]
                data2)).1
              = (band_vals (get_premiums [("1SD_CE", "NSE_FO|C"), ("1SD_PE", "NSE_FO|D")]
                  [("NSE_FO:C", (55 : ℚ))])).1 ∧
            (("1SD_PE" = "1SD_CE" ∨ "1SD_PE" = "1SD_PE") →
              (band_vals (get_premiums [("1SD_CE", "NSE_FO|C"), ("1SD_PE", "NSE_FO|D")]
                    data2)).2.2
                = (band_vals (get_premiums [("1SD_CE", "NSE_FO|C"), ("1SD_PE", "NSE_FO|D")]
                    [("NSE_FO:C", (55 : ℚ))])).2.2) ∧
            (("1SD_PE" = "2SD_CE" ∨ "1SD_PE" = "2SD_PE") →
              (band_vals (get_premiums [("1SD_CE", "NSE_FO|C"), ("1SD_PE", "NSE_FO|D")]
                    data2)).2.1
                = (band_vals (get_premiums [("1SD_CE", "NSE_FO|C"), ("1SD_PE", "NSE_FO|D")]
                    [("NSE_FO:C", (55 : ℚ))])).2.1))) :=
  ⟨by decide, by decide, by decide, by decide,
    C6_partial_miss_zero [("1SD_CE", "NSE_FO|C"), ("1SD_PE", "NSE_FO|D")]
      [("NSE_FO:C", (55 : ℚ))] "1SD_PE" "NSE_FO|D"
      (by decide) (by decide) (by decide) (by decide)⟩

/-- C7: pipe-to-colon translation round trip — whenever the response
holds a price under the colon form of a requested pipe-form identifier,
both the batched premium fetch and the spot fetch hand that price back
under the requested identifier (no silent drop). -/
theorem C7_pipe_colon_roundtrip (kd : List (String × String))
    (data : List (String × ℚ)) (k v : String) (p : ℚ)
    (hnd : (kd.map Prod.fst).Nodup) (hmem : (k, v) ∈ kd)
    (hp : dget data (pipeToColon v) = some p) :
    dget (get_premiums kd data) k = some p ∧
      (fetch_spot_price (QuoteResponse.payload "success" data) v).value
        = some p := by
  constructor
  · rw [get_premiums_dget data kd k v hnd hmem, hp]; rfl
  · simp [fetch_spot_price, hp]

/-- C7 witness: one requested identifier with a colon-keyed response. -/
theorem C7_pipe_colon_roundtrip_witness :
    ((([("ATM_CE", "NSE_FO|A")] : List (String × String)).map Prod.fst).Nodup) ∧
      ("ATM_CE", "NSE_FO|A") ∈ ([("ATM_CE", "NSE_FO|A")] : List (String × String)) ∧
      dget [("NSE_FO:A", (110 : ℚ))] (pipeToColon "NSE_FO|A") = some 110 ∧
      (dget (get_premiums [("ATM_CE", "NSE_FO|A")] [("NSE_FO:A", (110 : ℚ))])
          "ATM_CE" = some 110 ∧
        (fetch_spot_price
            (QuoteResponse.payload "success" [("NSE_FO:A", (110 : ℚ))])
            "NSE_FO|A").value = some 110) :=
  ⟨by decide, by decide, by decide,
    C7_pipe_colon_roundtrip [("ATM_CE", "NSE_FO|A")] [("NSE_FO:A", (110 : ℚ))]
      "ATM_CE" "NSE_FO|A" 110 (by decide) (by decide) (by decide)⟩

/-- C8: the fetch helpers are total functions of the response (nothing
can escape the `try`/`except`), and when the call raises — network
failure, timeout, malformed payload — they return `None` plus an error
message rather than propagating the exception. -/
theorem C8_no_exception_on_failure (key : String)
    (kd : List (String × String)) (h : kd ≠ []) :
    (fetch_spot_price QuoteResponse.exn key).value = none ∧
      (fetch_spot_price QuoteResponse.exn key).errMsg
        = some "Error fetching Spot" ∧
      (get_premiums_resp kd QuoteResponse.exn).value = none ∧
      (get_premiums_resp kd QuoteResponse.exn).errMsg
        = some "Premium Fetch Error" := by
  refine ⟨rfl, rfl, ?_, ?_⟩ <;> simp [get_premiums_resp, h]

/-- C8 witness: a failing call with one requested key. -/
theorem C8_no_exception_on_failure_witness :
    ([("ATM_CE", "NSE_FO|A")] : List (String × String)) ≠ [] ∧
      ((fetch_spot_price QuoteResponse.exn "NSE_INDEX|Nifty 50").value = none ∧
        (fetch_spot_price QuoteResponse.exn "NSE_INDEX|Nifty 50").errMsg
          = some "Error fetching Spot" ∧
        (get_premiums_resp [("ATM_CE", "NSE_FO|A")] QuoteResponse.exn).value
          = none ∧
        (get_premiums_resp [("ATM_CE", "NSE_FO|A")] QuoteResponse.exn).errMsg
          = some "Premium Fetch Error") :=
  ⟨by decide,
    C8_no_exception_on_failure "NSE_INDEX|Nifty 50"
      [("ATM_CE", "NSE_FO|A")] (by decide)⟩

/-- C9: an empty credential short-circuits the whole script — no
pipeline step runs, the buffer is untouched and the info prompt is the
only output; with a non-empty credential the pipeline starts (the spot
fetch is always invoked). -/
theorem C9_token_gates_pipeline (token symbol : String) (env : Env)
    (step_size : ℤ) (buf : List Row) (t : String) :
    (token = "" →
        main_script token symbol env step_size buf t = ([], buf, [tokenInfoMsg])) ∧
      (token ≠ "" →
        PipelineStep.spotFetch ∈ (main_script token symbol env step_size buf t).1) := by
  constructor
  · intro h
    simp [main_script, h]
  · intro h
    unfold main_script
    rw [if_neg h]
    split
    · simp
    · split
      · simp
      · simp
      · split
        · simp
        · split
          · simp
          · split
            · simp
            · simp

/-- C9 witness: the empty and a non-empty token on a concrete
environment. -/
theorem C9_token_gates_pipeline_witness :
    main_script "" "NIFTY" ⟨QuoteResponse.exn, ChainResponse.exn, QuoteResponse.exn⟩
        50 [] "10:00:00" = ([], [], [tokenInfoMsg]) ∧
      PipelineStep.spotFetch ∈
        (main_script "tok" "NIFTY"
            ⟨QuoteResponse.exn, ChainResponse.exn, QuoteResponse.exn⟩
            50 [] "10:00:00").1 :=
  ⟨(C9_token_gates_pipeline "" "NIFTY"
        ⟨QuoteResponse.exn, ChainResponse.exn, QuoteResponse.exn⟩
        50 [] "10:00:00").1 rfl,
    (C9_token_gates_pipeline "tok" "NIFTY"
        ⟨QuoteResponse.exn, ChainResponse.exn, QuoteResponse.exn⟩
        50 [] "10:00:00").2 (by decide)⟩

end KyotoApp
